import Mathlib

/-!
Verification of the RemoteWebCam desktop core (stream receiver, virtual
camera, ADB bridge) against its natural-language specification.

The Python sources are shallowly embedded: byte strings become lists of
naturals, Python text becomes lists of characters, machine floats are
modelled by exact rationals, and the stateful classes become explicit
state-passing functions.  External effects (HTTP transport, subprocess
results, device acquisition) are passed in as explicit parameters.
-/

/-- ConnectionStatus enum of receiver.py. -/
inductive ConnectionStatus where
  | disconnected
  | connecting
  | connected
  | error
deriving DecidableEq, Repr

/-- Index of the first occurrence of the two-byte pattern a, b in a byte list.
Embeds bytes_buffer.find of the two-byte JPEG markers in receiver.py. -/
def find2 (a b : Nat) : List Nat → Option Nat
  | x :: y :: rest =>
    if x = a ∧ y = b then some 0
    else (find2 a b (y :: rest)).map (· + 1)
  | _ => none

theorem find2_nil (a b : Nat) : find2 a b [] = none := rfl

theorem find2_one (a b x : Nat) : find2 a b [x] = none := rfl

theorem find2_cons2 (a b x y : Nat) (r : List Nat) :
    find2 a b (x :: y :: r) =
      if x = a ∧ y = b then some 0 else (find2 a b (y :: r)).map (· + 1) := rfl

/-- One iteration of the raw marker-scanning loop body of
StreamReceiver._receive_loop (receiver.py lines 119-138): append the chunk to
the buffer, search for the first JPEG start marker FFD8 (255, 216) and the
first end marker FFD9 (255, 217), and when both are found with the end
strictly after the start, slice the inclusive range out as one encoded frame
and drop everything up to and including it from the buffer.  At most one
frame is extracted per chunk, exactly as in the source. -/
def processChunk (buf chunk : List Nat) : List Nat × Option (List Nat) :=
  match find2 255 216 (buf ++ chunk), find2 255 217 (buf ++ chunk) with
  | some s, some e =>
    if s < e then
      ((buf ++ chunk).drop (e + 2), some (((buf ++ chunk).take (e + 2)).drop s))
    else (buf ++ chunk, none)
  | _, _ => (buf ++ chunk, none)

/-- Run the raw marker-scanning ingestion loop over a list of transport
chunks, returning the final buffer and the extracted frames in order. -/
def runChunks : List Nat → List (List Nat) → List Nat × List (List Nat)
  | buf, [] => (buf, [])
  | buf, c :: cs =>
    (((runChunks (processChunk buf c).1 cs)).1,
      (processChunk buf c).2.toList ++ ((runChunks (processChunk buf c).1 cs)).2)

/-- A well-formed marker-delimited JPEG frame: at least four bytes, the
start marker FFD8 at position 0, and the first end marker FFD9 exactly at
the last two bytes. -/
def isFrame (f : List Nat) : Prop :=
  4 ≤ f.length ∧ find2 255 216 f = some 0 ∧ find2 255 217 f = some (f.length - 2)

instance (f : List Nat) : Decidable (isFrame f) := by
  unfold isFrame
  infer_instance

/-- Feeds pre frames chunks: starting from a buffered residue pre, the chunk
list delivers the byte stream of the given frames in a way that completes at
most one frame per chunk.  Each chunk either extends the residue to a strict
front part of the next frame, or completes exactly the next frame leaving a
new residue. -/
inductive Feeds : List Nat → List (List Nat) → List (List Nat) → Prop where
  | done : Feeds [] [] []
  | grow (pre c t f : List Nat) (fs cs : List (List Nat)) :
      (pre ++ c) ++ t = f → t ≠ [] → Feeds (pre ++ c) (f :: fs) cs →
      Feeds pre (f :: fs) (c :: cs)
  | emit (pre c pre' f : List Nat) (fs cs : List (List Nat)) :
      pre ++ c = f ++ pre' → Feeds pre' fs cs →
      Feeds pre (f :: fs) (c :: cs)

theorem find2_append_some (a b : Nat) (l : List Nat) :
    ∀ (t : List Nat) (n : Nat), find2 a b l = some n → find2 a b (l ++ t) = some n := by
  induction l with
  | nil => intro t n h; rw [find2_nil] at h; exact absurd h (by simp)
  | cons x xs ih =>
    intro t n h
    cases xs with
    | nil => rw [find2_one] at h; exact absurd h (by simp)
    | cons y r =>
      rw [find2_cons2] at h
      simp only [List.cons_append]
      rw [find2_cons2]
      by_cases hab : x = a ∧ y = b
      · rw [if_pos hab] at h ⊢; exact h
      · rw [if_neg hab] at h ⊢
        rcases Option.map_eq_some'.1 h with ⟨m, hm, hn⟩
        have h2 := ih t m hm
        simp only [List.cons_append] at h2
        rw [h2]
        simp [hn]

theorem find2_front_none (a b : Nat) (l : List Nat) :
    ∀ (t : List Nat) (n : Nat), find2 a b (l ++ t) = some n → l.length < n + 2 →
      find2 a b l = none := by
  induction l with
  | nil => intro t n _ _; rfl
  | cons x xs ih =>
    intro t n h hlt
    cases xs with
    | nil => rfl
    | cons y r =>
      simp only [List.cons_append] at h
      rw [find2_cons2] at h
      rw [find2_cons2]
      by_cases hab : x = a ∧ y = b
      · rw [if_pos hab] at h
        injection h with h0
        exfalso
        simp only [List.length_cons] at hlt
        omega
      · rw [if_neg hab] at h ⊢
        rcases Option.map_eq_some'.1 h with ⟨m, hm, hn⟩
        have h2 : find2 a b (y :: r) = none := by
          apply ih t m
          · simpa only [List.cons_append] using hm
          · simp only [List.length_cons] at hlt ⊢
            omega
        rw [h2]
        rfl

/-- A strict front part of a well-formed frame contains no end marker. -/
theorem no_end_marker_in_front (f l t : List Nat) (hf : isFrame f)
    (heq : l ++ t = f) (ht : t ≠ []) : find2 255 217 l = none := by
  obtain ⟨hlen, _, h217⟩ := hf
  have hlt : 1 ≤ t.length := by
    cases t with
    | nil => exact absurd rfl ht
    | cons _ _ => simp
  apply find2_front_none 255 217 l t (f.length - 2)
  · rw [heq]; exact h217
  · have hft : f.length = l.length + t.length := by rw [← heq]; simp
    omega

theorem runChunks_feeds (frames : List (List Nat)) :
    ∀ (pre : List Nat) (chunks : List (List Nat)),
      (∀ f ∈ frames, isFrame f) → Feeds pre frames chunks →
      (runChunks pre chunks).2 = frames := by
  intro pre chunks hw hf
  induction hf with
  | done => rfl
  | grow pre c t f fs cs heq ht _ ih =>
    have hfr : isFrame f := hw f (List.mem_cons_self f fs)
    have hnone : find2 255 217 (pre ++ c) = none :=
      no_end_marker_in_front f (pre ++ c) t hfr heq ht
    have hproc : processChunk pre c = (pre ++ c, none) := by
      unfold processChunk
      rw [hnone]
      cases find2 255 216 (pre ++ c) <;> rfl
    rw [runChunks, hproc]
    simpa using ih hw
  | emit pre c pre' f fs cs heq _ ih =>
    have hfr : isFrame f := hw f (List.mem_cons_self f fs)
    obtain ⟨hlen, h216, h217⟩ := hfr
    have hb216 : find2 255 216 (pre ++ c) = some 0 := by
      rw [heq]; exact find2_append_some 255 216 f pre' 0 h216
    have hb217 : find2 255 217 (pre ++ c) = some (f.length - 2) := by
      rw [heq]; exact find2_append_some 255 217 f pre' (f.length - 2) h217
    have hproc : processChunk pre c = (pre', some f) := by
      have he2 : f.length - 2 + 2 = f.length := by omega
      simp only [processChunk, hb216, hb217]
      rw [if_pos (show 0 < f.length - 2 by omega)]
      rw [heq, he2, List.take_left, List.drop_left, List.drop_zero]
    rw [runChunks, hproc]
    have hrest : (runChunks pre' cs).2 = fs :=
      ih (fun g hg => hw g (List.mem_cons_of_mem f hg))
    simp [hrest]

/-- Claim C1 counterexample: a single transport chunk whose bytes are the
concatenation of two well-formed marker-delimited frames makes the raw
marker-scanning loop extract only one frame, because the loop body extracts
at most one frame per chunk; the second frame stays in the buffer and is
never delivered.  This refutes the claim that exactly N frames are extracted
regardless of how the bytes are fragmented into chunks. -/
theorem c1_counterexample :
    (∀ f ∈ [[255, 216, 255, 217], [255, 216, 255, 217]], isFrame f) ∧
    List.flatten [[255, 216, 255, 217], [255, 216, 255, 217]] =
      List.flatten [[255, 216, 255, 217, 255, 216, 255, 217]] ∧
    (runChunks [] [[255, 216, 255, 217, 255, 216, 255, 217]]).2.length = 1 := by
  decide

/-- Claim C1 (amended): the raw marker-scanning loop extracts at most one
frame per transport chunk; whenever the chunk sequence delivers the
concatenation of N well-formed marker-delimited frames in a way that
completes at most one frame per chunk (the Feeds relation), the loop
extracts exactly the N frames, in arrival order, with no frame content lost
or duplicated. -/
theorem c1_extraction_amended (frames chunks : List (List Nat))
    (hw : ∀ f ∈ frames, isFrame f) (hf : Feeds [] frames chunks) :
    (runChunks [] chunks).2 = frames :=
  runChunks_feeds frames [] chunks hw hf

/-- Witness for claim C1: a concrete two-chunk delivery of one frame split
across the chunks satisfies the hypotheses, and the loop extracts exactly
that frame. -/
theorem c1_extraction_amended_witness :
    (runChunks [] [[255, 216], [255, 217]]).2 = [[255, 216, 255, 217]] :=
  c1_extraction_amended [[255, 216, 255, 217]] [[255, 216], [255, 217]]
    (by decide)
    (Feeds.grow [] [255, 216] [255, 217] [255, 216, 255, 217] [] [[255, 217]]
      (by decide) (by decide)
      (Feeds.emit [255, 216] [255, 217] [] [255, 216, 255, 217] [] []
        (by decide) Feeds.done))

/-- Transport-level events observed by the raw receive loop while iterating
response.iter_content: a data chunk arrives, or the iteration raises a
transport exception. -/
inductive StreamEvt where
  | chunk : StreamEvt
  | err : StreamEvt
deriving DecidableEq

/-- Whether the concurrent disconnect request has been observed: stopAt k
means the running flag is false from the point where k events have been
processed onwards. -/
def stopSeen (stopAt : Option Nat) (j : Nat) : Bool :=
  match stopAt with
  | some k => decide (k ≤ j)
  | none => false

/-- Body of the for-chunk loop of StreamReceiver._receive_loop, from the
running-flag check down to the except clauses (receiver.py lines 119-145):
returns the running flag seen by the finally clause together with the status
updates emitted by the loop body itself.  A chunk iteration emits no status;
a transport exception emits ERROR; exhausting the stream ends the loop. -/
def loopEvents (stopAt : Option Nat) : Nat → List StreamEvt → Bool × List ConnectionStatus
  | j, [] => (!stopSeen stopAt j, [])
  | j, e :: es =>
    if stopSeen stopAt j then (false, [])
    else
      match e with
      | StreamEvt.chunk => loopEvents stopAt (j + 1) es
      | StreamEvt.err => (!stopSeen stopAt (j + 1), [ConnectionStatus.error])

/-- Status updates emitted by one run of StreamReceiver._receive_loop
(receiver.py lines 101-149): CONNECTING, then on a successful stream open
CONNECTED followed by the loop body's updates, or on a failed open ERROR;
finally, if the running flag is still set, DISCONNECTED. -/
def rawReceiveTrace (connectOk : Bool) (stopAt : Option Nat) (events : List StreamEvt) :
    List ConnectionStatus :=
  ConnectionStatus.connecting ::
    (if connectOk then
      ConnectionStatus.connected ::
        ((loopEvents stopAt 0 events).2 ++
          (if (loopEvents stopAt 0 events).1 then [ConnectionStatus.disconnected] else []))
    else
      ConnectionStatus.error ::
        (if !stopSeen stopAt 0 then [ConnectionStatus.disconnected] else []))

/-- Claim C2 counterexample: a failed stream open with no concurrent stop
emits ERROR and then DISCONNECTED in the same session, because the finally
clause of the receive loop still sees the running flag set.  Error is
therefore not terminal for the session, refuting the claim that no further
status transition occurs after a failure until a new connect call. -/
theorem c2_counterexample :
    rawReceiveTrace false none [] =
      [ConnectionStatus.connecting, ConnectionStatus.error, ConnectionStatus.disconnected] ∧
    (rawReceiveTrace false none []).getLast? = some ConnectionStatus.disconnected := by
  decide

theorem loopEvents_err (es : List StreamEvt) :
    ∀ j : Nat, StreamEvt.err ∈ es →
      loopEvents none j es = (true, [ConnectionStatus.error]) := by
  induction es with
  | nil => intro j h; exact absurd h (List.not_mem_nil _)
  | cons e es ih =>
    intro j h
    cases e with
    | err => rfl
    | chunk =>
      have hmem : StreamEvt.err ∈ es := by
        rcases List.mem_cons.1 h with h1 | h1
        · exact absurd h1 (by decide)
        · exact h1
      show loopEvents none (j + 1) es = (true, [ConnectionStatus.error])
      exact ih (j + 1) hmem

/-- Claim C2 (amended): a failure-initiated termination of the raw receive
loop (failed stream open, or a transport error with no stop requested) moves
the status to Error, and the cleanup clause then immediately emits a further
transition to Disconnected because the session is still marked running; so
Error is not terminal for the session — every failure-initiated run ends
with the status pair Error, Disconnected. -/
theorem c2_error_then_disconnected (connectOk : Bool) (events : List StreamEvt)
    (hfail : connectOk = false ∨ StreamEvt.err ∈ events) :
    ∃ p, rawReceiveTrace connectOk none events =
      p ++ [ConnectionStatus.error, ConnectionStatus.disconnected] := by
  cases connectOk with
  | false => exact ⟨[ConnectionStatus.connecting], rfl⟩
  | true =>
    have herr : StreamEvt.err ∈ events := by
      rcases hfail with h | h
      · exact absurd h (by decide)
      · exact h
    refine ⟨[ConnectionStatus.connecting, ConnectionStatus.connected], ?_⟩
    unfold rawReceiveTrace
    rw [if_pos rfl, loopEvents_err events 0 herr]
    rfl

/-- Witness for claim C2: the failed-open execution satisfies the failure
hypothesis, and its trace ends with Error then Disconnected. -/
theorem c2_error_then_disconnected_witness :
    ∃ p, rawReceiveTrace false none [] =
      p ++ [ConnectionStatus.error, ConnectionStatus.disconnected] :=
  c2_error_then_disconnected false [] (Or.inl rfl)

/-- Python int() applied to a nonnegative-or-negative rational value:
truncation toward zero, num tdiv den.  Models int(w / target_aspect) in
virtual_cam.py; the Python float arithmetic is modelled by exact rationals. -/
def pyTrunc (q : ℚ) : ℤ := Int.tdiv q.num (q.den : ℤ)

/-- VirtualCamera._calculate_crop_params (virtual_cam.py lines 90-107):
center-crop geometry for 16:9 conversion.  Result tuple is
(x_offset, y_offset, width, height, needs_crop) as in the source; Python //
is floor division, modelled by Int.fdiv. -/
def calcCropParams (h w : ℕ) : ℤ × ℤ × ℤ × ℤ × Bool :=
  let targetAspect : ℚ := 16 / 9
  let currentAspect : ℚ := (w : ℚ) / (h : ℚ)
  if |currentAspect - targetAspect| < 1 / 100 then
    (0, 0, (w : ℤ), (h : ℤ), false)
  else if currentAspect < targetAspect then
    let newHeight : ℤ := pyTrunc ((w : ℚ) / targetAspect)
    let yOffset : ℤ := Int.fdiv ((h : ℤ) - newHeight) 2
    (0, yOffset, (w : ℤ), newHeight, true)
  else
    let newWidth : ℤ := pyTrunc ((h : ℚ) * targetAspect)
    let xOffset : ℤ := Int.fdiv ((w : ℤ) - newWidth) 2
    (xOffset, 0, newWidth, (h : ℤ), true)

theorem pyTrunc_eq_floor (q : ℚ) (hq : 0 ≤ q) : pyTrunc q = ⌊q⌋ := by
  unfold pyTrunc
  rw [Rat.floor_def]
  exact Int.tdiv_eq_ediv (Rat.num_nonneg.2 hq) (by positivity)

theorem calcCropParams_portrait (h w : ℕ)
    (htall : (w : ℚ) / (h : ℚ) ≤ 16 / 9 - 1 / 100) :
    calcCropParams h w =
      (0, Int.fdiv ((h : ℤ) - pyTrunc ((w : ℚ) / (16 / 9))) 2, (w : ℤ),
        pyTrunc ((w : ℚ) / (16 / 9)), true) := by
  have hlt : (w : ℚ) / (h : ℚ) < 16 / 9 := by linarith [show (0:ℚ) < 1/100 by norm_num]
  have habs : ¬(|(w : ℚ) / (h : ℚ) - 16 / 9| < 1 / 100) := by
    rw [abs_sub_comm, abs_of_nonneg (by linarith)]
    linarith
  simp only [calcCropParams]
  rw [if_neg habs, if_pos hlt]

theorem calcCropParams_1920_1080 :
    calcCropParams 1920 1080 = (0, 656, 1080, 607, true) := by
  have hp := calcCropParams_portrait 1920 1080 (by norm_num)
  have hq : ((1080 : ℕ) : ℚ) / (16 / 9) = 1215 / 2 := by norm_num
  have hfl : pyTrunc (((1080 : ℕ) : ℚ) / (16 / 9)) = 607 := by
    rw [pyTrunc_eq_floor _ (by positivity), hq]
    norm_num
  rw [hp, hfl]
  decide

/-- Claim C3 counterexample: for the 1080 by 1920 portrait input the code
computes the cropped height with Python int(), i.e. truncation, yielding
607 and not round(1080 / (16 / 9)) = 608 as the claim states; the offset is
(1920 - 607) // 2 = 656. -/
theorem c3_counterexample :
    calcCropParams 1920 1080 = (0, 656, 1080, 607, true) ∧ (607 : ℤ) ≠ 608 :=
  ⟨calcCropParams_1920_1080, by decide⟩

/-- Claim C3 (amended): for input aspect ratio within 0.01 of 16/9 the crop
computation sets needs_crop to false; for input strictly taller than the
tolerance band it crops vertically to new_height = floor(w / (16/9)) —
truncation via int(), not rounding — with vertical offset
(h - new_height) // 2 (floor division) and full width kept; in particular
for input 1080 by 1920 the cropped height is 607 (not 608) and the offset
is 656. -/
theorem c3_crop_geometry (h w : ℕ)
    (htall : (w : ℚ) / (h : ℚ) ≤ 16 / 9 - 1 / 100) :
    calcCropParams h w =
      (0, Int.fdiv ((h : ℤ) - pyTrunc ((w : ℚ) / (16 / 9))) 2, (w : ℤ),
        pyTrunc ((w : ℚ) / (16 / 9)), true) ∧
    pyTrunc ((w : ℚ) / (16 / 9)) = ⌊(w : ℚ) / (16 / 9)⌋ ∧
    (∀ h2 w2 : ℕ, |(w2 : ℚ) / (h2 : ℚ) - 16 / 9| < 1 / 100 →
      (calcCropParams h2 w2).2.2.2.2 = false) ∧
    calcCropParams 1920 1080 = (0, 656, 1080, 607, true) := by
  refine ⟨calcCropParams_portrait h w htall, pyTrunc_eq_floor _ (by positivity), ?_,
    calcCropParams_1920_1080⟩
  intro h2 w2 hnear
  simp only [calcCropParams]
  rw [if_pos hnear]

/-- Witness for claim C3 at the concrete portrait input 1080 by 1920. -/
theorem c3_crop_geometry_witness :
    calcCropParams 1920 1080 =
      (0, Int.fdiv ((1920 : ℤ) - pyTrunc (((1080 : ℕ) : ℚ) / (16 / 9))) 2, ((1080 : ℕ) : ℤ),
        pyTrunc (((1080 : ℕ) : ℚ) / (16 / 9)), true) ∧
    pyTrunc (((1080 : ℕ) : ℚ) / (16 / 9)) = ⌊((1080 : ℕ) : ℚ) / (16 / 9)⌋ ∧
    (∀ h2 w2 : ℕ, |(w2 : ℚ) / (h2 : ℚ) - 16 / 9| < 1 / 100 →
      (calcCropParams h2 w2).2.2.2.2 = false) ∧
    calcCropParams 1920 1080 = (0, 656, 1080, 607, true) :=
  c3_crop_geometry 1920 1080 (by norm_num)

/-- Handle to the acquired virtual output device, recording the geometry it
was opened with (pyvirtualcam.Camera in virtual_cam.py). -/
structure CamHandle where
  width : ℕ
  height : ℕ
  fps : ℕ
deriving DecidableEq

/-- Mutable state of VirtualCamera (virtual_cam.py): the optional device
handle, the enabled flag, the target geometry fields and the availability
flag set at construction. -/
structure VCamState where
  camera : Option CamHandle
  enabled : Bool
  width : ℕ
  height : ℕ
  fps : ℕ
  available : Bool
deriving DecidableEq

/-- VirtualCamera.start (virtual_cam.py lines 47-75).  The outcome of the
device acquisition (pyvirtualcam.Camera constructor succeeding or raising)
is the acquireOk parameter.  Note the source assigns the width, height and
fps fields before attempting acquisition, so they are updated even on
failure. -/
def vcamStart (st : VCamState) (acquireOk : Bool) (w h fps : ℕ) : VCamState × Bool :=
  if !st.available then (st, false)
  else if st.camera.isSome then (st, true)
  else
    let st1 : VCamState := { st with width := w, height := h, fps := fps }
    if acquireOk then
      ({ st1 with camera := some { width := w, height := h, fps := fps },
                  enabled := true }, true)
    else
      ({ st1 with camera := none, enabled := false }, false)

/-- Claim C4 counterexample: a failing start(640, 480, 15) on an available,
not-yet-started camera whose width field was 1280 returns failure but leaves
the width field changed to 640, refuting the claim that failure leaves no
field modified. -/
theorem c4_counterexample :
    (vcamStart
        { camera := none, enabled := false, width := 1280, height := 720,
          fps := 30, available := true } false 640 480 15).2 = false ∧
    (vcamStart
        { camera := none, enabled := false, width := 1280, height := 720,
          fps := 30, available := true } false 640 480 15).1.width = 640 ∧
    (640 : ℕ) ≠ 1280 := by
  decide

/-- Claim C4 (amended): start is idempotent — with the device available and
a handle already open it returns success at once and leaves the state
unchanged; when acquisition fails it returns failure with the camera not
enabled and no device handle, but the width, height and fps fields are
updated to the requested values rather than left unchanged. -/
theorem c4_start_amended (st : VCamState) (acquireOk : Bool) (w h fps : ℕ) :
    (st.available = true → st.camera.isSome = true →
      vcamStart st acquireOk w h fps = (st, true)) ∧
    (st.available = true → st.camera = none → acquireOk = false →
      vcamStart st acquireOk w h fps =
        ({ st with width := w, height := h, fps := fps,
                   camera := none, enabled := false }, false)) := by
  constructor
  · intro hav hsome
    unfold vcamStart
    rw [hav]
    simp only [Bool.not_true, Bool.false_eq_true, if_false]
    rw [if_pos hsome]
  · intro hav hnone hacq
    unfold vcamStart
    rw [hav, hnone, hacq]
    simp

/-- Witness for claim C4: both branches instantiated on concrete states. -/
theorem c4_start_amended_witness :
    (vcamStart
        { camera := some { width := 1280, height := 720, fps := 30 }, enabled := true,
          width := 1280, height := 720, fps := 30, available := true } false 640 480 15 =
      ({ camera := some { width := 1280, height := 720, fps := 30 }, enabled := true,
         width := 1280, height := 720, fps := 30, available := true }, true)) ∧
    (vcamStart
        { camera := none, enabled := false, width := 1280, height := 720,
          fps := 30, available := true } false 640 480 15 =
      ({ camera := none, enabled := false, width := 640, height := 480,
         fps := 15, available := true }, false)) := by
  constructor
  · exact (c4_start_amended
      { camera := some { width := 1280, height := 720, fps := 30 }, enabled := true,
        width := 1280, height := 720, fps := 30, available := true } false 640 480 15).1
      rfl rfl
  · exact (c4_start_amended
      { camera := none, enabled := false, width := 1280, height := 720,
        fps := 30, available := true } false 640 480 15).2 rfl rfl rfl

/-- StreamStats dataclass of receiver.py; all fields default to zero. -/
structure StreamStats where
  fps : ℚ
  frameCount : ℕ
  bytesReceived : ℕ
  latencyMs : ℚ
deriving DecidableEq

/-- Fresh StreamStats() with all fields zero. -/
def StreamStats.zero : StreamStats :=
  { fps := 0, frameCount := 0, bytesReceived := 0, latencyMs := 0 }

/-- Mutable state of a StreamReceiver (receiver.py lines 34-45): stream url,
running flag, presence of the ingestion thread, current frame slot, status,
whether a status callback is registered, the stats, and the frame-timing
state (last frame timestamp and the rolling inter-arrival window). -/
structure RecvState where
  streamUrl : Option String
  running : Bool
  hasThread : Bool
  currentFrame : Option (List ℕ)
  status : ConnectionStatus
  hasStatusCallback : Bool
  stats : StreamStats
  lastFrameTime : ℚ
  frameTimes : List ℚ
deriving DecidableEq

/-- StreamReceiver._update_status: sets the status field and invokes the
status callback when one is registered.  The second component is the list of
statuses delivered to the callback by this call. -/
def updateStatus (st : RecvState) (s : ConnectionStatus) : RecvState × List ConnectionStatus :=
  ({ st with status := s }, if st.hasStatusCallback then [s] else [])

/-- StreamReceiver.disconnect (receiver.py lines 86-94): clear the running
flag, join and drop the thread, clear the current frame, replace the stats
with a fresh zeroed StreamStats, and update the status to DISCONNECTED —
which always invokes the status callback when registered.  The frame-timing
fields are not touched. -/
def recvDisconnect (st : RecvState) : RecvState × List ConnectionStatus :=
  updateStatus
    { st with running := false, hasThread := false, currentFrame := none,
              stats := StreamStats.zero }
    ConnectionStatus.disconnected

/-- Stream URL construction in StreamReceiver.connect. -/
def buildStreamUrl (host : String) (port : ℕ) : String :=
  let host2 := if host.startsWith ("http") then host else ("http://" ++ host)
  host2 ++ ":" ++ toString port ++ "/video"

/-- StreamReceiver.connect (receiver.py lines 72-84): implicit disconnect
when already running, then store the stream url, set the running flag and
start the ingestion thread. -/
def recvConnect (st : RecvState) (host : String) (port : ℕ) : RecvState × List ConnectionStatus :=
  let p := if st.running then recvDisconnect st else (st, [])
  ({ p.1 with streamUrl := some (buildStreamUrl host port), running := true,
              hasThread := true }, p.2)

/-- StreamReceiver._update_frame (receiver.py lines 160-184): when a previous
frame timestamp exists, push the inter-arrival delta into the rolling window,
evict the oldest entry when the window exceeds 30, and set fps to the
reciprocal of the window mean when that mean is positive, else 0; then record
the timestamp, increment frame_count and store the frame. -/
def recvUpdateFrame (st : RecvState) (currentTime : ℚ) (frame : List ℕ) : RecvState :=
  let p :=
    if 0 < st.lastFrameTime then
      let ts0 := st.frameTimes ++ [currentTime - st.lastFrameTime]
      let ts := if 30 < ts0.length then ts0.tail else ts0
      let fps :=
        if ts ≠ [] then
          (if 0 < ts.sum / (ts.length : ℚ) then 1 / (ts.sum / (ts.length : ℚ)) else 0)
        else st.stats.fps
      (ts, fps)
    else (st.frameTimes, st.stats.fps)
  { st with
    frameTimes := p.1,
    lastFrameTime := currentTime,
    stats := { st.stats with fps := p.2, frameCount := st.stats.frameCount + 1 },
    currentFrame := some frame }

theorem recvUpdateFrame_of_prev (st : RecvState) (t : ℚ) (frame : List ℕ)
    (hprev : 0 < st.lastFrameTime) :
    recvUpdateFrame st t frame =
      { st with
        frameTimes :=
          (if 30 < (st.frameTimes ++ [t - st.lastFrameTime]).length then
            (st.frameTimes ++ [t - st.lastFrameTime]).tail
          else st.frameTimes ++ [t - st.lastFrameTime]),
        lastFrameTime := t,
        stats :=
          { st.stats with
            fps :=
              (if (if 30 < (st.frameTimes ++ [t - st.lastFrameTime]).length then
                    (st.frameTimes ++ [t - st.lastFrameTime]).tail
                  else st.frameTimes ++ [t - st.lastFrameTime]) ≠ [] then
                (if 0 < (if 30 < (st.frameTimes ++ [t - st.lastFrameTime]).length then
                        (st.frameTimes ++ [t - st.lastFrameTime]).tail
                      else st.frameTimes ++ [t - st.lastFrameTime]).sum /
                      (((if 30 < (st.frameTimes ++ [t - st.lastFrameTime]).length then
                        (st.frameTimes ++ [t - st.lastFrameTime]).tail
                      else st.frameTimes ++ [t - st.lastFrameTime]).length : ℕ) : ℚ) then
                  1 / ((if 30 < (st.frameTimes ++ [t - st.lastFrameTime]).length then
                        (st.frameTimes ++ [t - st.lastFrameTime]).tail
                      else st.frameTimes ++ [t - st.lastFrameTime]).sum /
                      (((if 30 < (st.frameTimes ++ [t - st.lastFrameTime]).length then
                        (st.frameTimes ++ [t - st.lastFrameTime]).tail
                      else st.frameTimes ++ [t - st.lastFrameTime]).length : ℕ) : ℚ))
                else 0)
              else st.stats.fps),
            frameCount := st.stats.frameCount + 1 },
        currentFrame := some frame } := by
  unfold recvUpdateFrame
  rw [if_pos hprev]

/-- A receiver already in the Disconnected state with no ingestion thread,
no frame, zeroed stats and a registered status callback. -/
def quietReceiver : RecvState :=
  { streamUrl := none, running := false, hasThread := false, currentFrame := none,
    status := ConnectionStatus.disconnected, hasStatusCallback := true,
    stats := StreamStats.zero, lastFrameTime := 0, frameTimes := [] }

/-- Claim C5 counterexample: calling disconnect on a receiver that is
already Disconnected with no thread running still invokes the status
callback (with DISCONNECTED), because _update_status unconditionally calls
the callback; this refutes the claim that no observable callback invocation
occurs. -/
theorem c5_counterexample :
    quietReceiver.status = ConnectionStatus.disconnected ∧
    quietReceiver.hasThread = false ∧
    (recvDisconnect quietReceiver).2 = [ConnectionStatus.disconnected] ∧
    (recvDisconnect quietReceiver).2 ≠ ([] : List ConnectionStatus) := by
  refine ⟨rfl, rfl, rfl, ?_⟩
  intro h
  exact absurd h (by simp [recvDisconnect, updateStatus, quietReceiver])

/-- Claim C5 (amended): disconnect on a receiver that is already
Disconnected, not running, with no thread, no current frame and zeroed
stats is idempotent on the state — the state is unchanged — but it is not
free of side effects: each call invokes the status callback once with
Disconnected whenever a callback is registered. -/
theorem c5_disconnect_amended (st : RecvState)
    (h1 : st.status = ConnectionStatus.disconnected) (h2 : st.running = false)
    (h3 : st.hasThread = false) (h4 : st.currentFrame = none)
    (h5 : st.stats = StreamStats.zero) :
    (recvDisconnect st).1 = st ∧
    (recvDisconnect st).2 =
      (if st.hasStatusCallback then [ConnectionStatus.disconnected] else []) := by
  obtain ⟨url, run, thr, cf, stat, cb, sts, lft, fts⟩ := st
  simp only at h1 h2 h3 h4 h5
  subst h1 h2 h3 h4 h5
  exact ⟨rfl, rfl⟩

/-- Witness for claim C5 at the concrete quiet receiver. -/
theorem c5_disconnect_amended_witness :
    (recvDisconnect quietReceiver).1 = quietReceiver ∧
    (recvDisconnect quietReceiver).2 =
      (if quietReceiver.hasStatusCallback then [ConnectionStatus.disconnected] else []) :=
  c5_disconnect_amended quietReceiver rfl rfl rfl rfl rfl

/-- Claim C8: after each accepted frame with a previous timestamp, the
inter-arrival delta is appended to the rolling window, the oldest entry is
evicted exactly when the window already held 30 entries, the window stays
within capacity 30 and nonempty, fps is set to the reciprocal of the mean
of the current window contents (zero when that mean is not positive), and
frame_count increments by exactly one per accepted decoded frame. -/
theorem c8_update_frame_stats (st : RecvState) (t : ℚ) (frame : List ℕ)
    (hprev : 0 < st.lastFrameTime) (hcap : st.frameTimes.length ≤ 30) :
    (recvUpdateFrame st t frame).frameTimes =
      (if st.frameTimes.length = 30 then st.frameTimes.tail else st.frameTimes)
        ++ [t - st.lastFrameTime] ∧
    (recvUpdateFrame st t frame).frameTimes ≠ [] ∧
    (recvUpdateFrame st t frame).frameTimes.length ≤ 30 ∧
    (recvUpdateFrame st t frame).stats.fps =
      (if 0 < (recvUpdateFrame st t frame).frameTimes.sum /
            ((recvUpdateFrame st t frame).frameTimes.length : ℚ) then
        1 / ((recvUpdateFrame st t frame).frameTimes.sum /
            ((recvUpdateFrame st t frame).frameTimes.length : ℚ))
      else 0) ∧
    (recvUpdateFrame st t frame).stats.frameCount = st.stats.frameCount + 1 ∧
    (recvUpdateFrame st t frame).lastFrameTime = t := by
  have hrw := recvUpdateFrame_of_prev st t frame hprev
  set d := t - st.lastFrameTime with hd
  set W := (if 30 < (st.frameTimes ++ [d]).length then (st.frameTimes ++ [d]).tail
            else st.frameTimes ++ [d]) with hWdef
  have hlen1 : (st.frameTimes ++ [d]).length = st.frameTimes.length + 1 := by simp
  have hts : W = (if st.frameTimes.length = 30 then st.frameTimes.tail
      else st.frameTimes) ++ [d] := by
    rw [hWdef]
    by_cases h30 : st.frameTimes.length = 30
    · have hgt : 30 < (st.frameTimes ++ [d]).length := by omega
      rw [if_pos hgt, if_pos h30]
      cases hft : st.frameTimes with
      | nil => rw [hft] at h30; simp at h30
      | cons a l => simp
    · have hle : ¬ 30 < (st.frameTimes ++ [d]).length := by omega
      rw [if_neg hle, if_neg h30]
  have hne : W ≠ [] := by rw [hts]; simp
  have hfts : (recvUpdateFrame st t frame).frameTimes = W := by rw [hrw]
  have hfps : (recvUpdateFrame st t frame).stats.fps =
      (if W ≠ [] then
        (if 0 < W.sum / (W.length : ℚ) then 1 / (W.sum / (W.length : ℚ)) else 0)
      else st.stats.fps) := by rw [hrw]
  have htail : st.frameTimes.tail.length = st.frameTimes.length - 1 := by simp
  refine ⟨hfts.trans hts, ?_, ?_, ?_, ?_, ?_⟩
  · rw [hfts]; exact hne
  · rw [hfts, hts]
    by_cases h30 : st.frameTimes.length = 30
    · rw [if_pos h30]
      simp only [List.length_append, List.length_cons, List.length_nil]
      omega
    · rw [if_neg h30]
      simp only [List.length_append, List.length_cons, List.length_nil]
      omega
  · rw [hfps, if_pos hne, hfts]
  · rw [hrw]
  · rw [hrw]

/-- A receiver mid-session: one previous frame at time 1 and one recorded
inter-arrival delta. -/
def activeReceiver : RecvState :=
  { streamUrl := none, running := true, hasThread := true, currentFrame := none,
    status := ConnectionStatus.connected, hasStatusCallback := true,
    stats := StreamStats.zero, lastFrameTime := 1, frameTimes := [1] }

/-- Witness for claim C8 at a concrete mid-session receiver state. -/
theorem c8_update_frame_stats_witness :
    (recvUpdateFrame activeReceiver 2 []).frameTimes =
      (if activeReceiver.frameTimes.length = 30 then activeReceiver.frameTimes.tail
        else activeReceiver.frameTimes) ++ [2 - activeReceiver.lastFrameTime] ∧
    (recvUpdateFrame activeReceiver 2 []).frameTimes ≠ [] ∧
    (recvUpdateFrame activeReceiver 2 []).frameTimes.length ≤ 30 ∧
    (recvUpdateFrame activeReceiver 2 []).stats.fps =
      (if 0 < (recvUpdateFrame activeReceiver 2 []).frameTimes.sum /
            ((recvUpdateFrame activeReceiver 2 []).frameTimes.length : ℚ) then
        1 / ((recvUpdateFrame activeReceiver 2 []).frameTimes.sum /
            ((recvUpdateFrame activeReceiver 2 []).frameTimes.length : ℚ))
      else 0) ∧
    (recvUpdateFrame activeReceiver 2 []).stats.frameCount =
      activeReceiver.stats.frameCount + 1 ∧
    (recvUpdateFrame activeReceiver 2 []).lastFrameTime = 2 :=
  c8_update_frame_stats activeReceiver 2 []
    (by norm_num [activeReceiver]) (by norm_num [activeReceiver])

/-- Claim C10: disconnect replaces the stats with zeros but leaves the
rolling inter-arrival window and the last-frame timestamp unchanged; after a
subsequent connect, the first accepted frame of the new session computes its
fps over a window consisting of the previous session's deltas plus one delta
spanning the disconnected period, and its frame count restarts at 1. -/
theorem c10_window_survives_disconnect (st : RecvState) (host : String) (port : ℕ)
    (t1 : ℚ) (frame : List ℕ)
    (hprev : 0 < st.lastFrameTime) (hcap : st.frameTimes.length < 30) :
    (recvDisconnect st).1.stats = StreamStats.zero ∧
    (recvDisconnect st).1.frameTimes = st.frameTimes ∧
    (recvDisconnect st).1.lastFrameTime = st.lastFrameTime ∧
    (recvConnect (recvDisconnect st).1 host port).1.stats = StreamStats.zero ∧
    (recvConnect (recvDisconnect st).1 host port).1.frameTimes = st.frameTimes ∧
    (recvConnect (recvDisconnect st).1 host port).1.lastFrameTime = st.lastFrameTime ∧
    (recvUpdateFrame (recvConnect (recvDisconnect st).1 host port).1 t1 frame).frameTimes =
      st.frameTimes ++ [t1 - st.lastFrameTime] ∧
    (recvUpdateFrame (recvConnect (recvDisconnect st).1 host port).1 t1 frame).stats.fps =
      (if 0 < (st.frameTimes ++ [t1 - st.lastFrameTime]).sum /
            ((st.frameTimes ++ [t1 - st.lastFrameTime]).length : ℚ) then
        1 / ((st.frameTimes ++ [t1 - st.lastFrameTime]).sum /
            ((st.frameTimes ++ [t1 - st.lastFrameTime]).length : ℚ))
      else 0) ∧
    (recvUpdateFrame (recvConnect (recvDisconnect st).1 host port).1 t1 frame).stats.frameCount
      = 1 := by
  have hprevC : 0 < (recvConnect (recvDisconnect st).1 host port).1.lastFrameTime := hprev
  have hrw := recvUpdateFrame_of_prev (recvConnect (recvDisconnect st).1 host port).1
    t1 frame hprevC
  have hlen1 : (st.frameTimes ++ [t1 - st.lastFrameTime]).length
      = st.frameTimes.length + 1 := by simp
  have hle : ¬ 30 < (st.frameTimes ++ [t1 - st.lastFrameTime]).length := by omega
  have h7 : (recvUpdateFrame (recvConnect (recvDisconnect st).1 host port).1 t1
      frame).frameTimes = st.frameTimes ++ [t1 - st.lastFrameTime] := by
    rw [hrw]
    show (if 30 < (st.frameTimes ++ [t1 - st.lastFrameTime]).length then
        (st.frameTimes ++ [t1 - st.lastFrameTime]).tail
      else st.frameTimes ++ [t1 - st.lastFrameTime]) =
      st.frameTimes ++ [t1 - st.lastFrameTime]
    rw [if_neg hle]
  have hne : st.frameTimes ++ [t1 - st.lastFrameTime] ≠ [] := by simp
  have h8 : (recvUpdateFrame (recvConnect (recvDisconnect st).1 host port).1 t1
      frame).stats.fps =
      (if 0 < (st.frameTimes ++ [t1 - st.lastFrameTime]).sum /
            ((st.frameTimes ++ [t1 - st.lastFrameTime]).length : ℚ) then
        1 / ((st.frameTimes ++ [t1 - st.lastFrameTime]).sum /
            ((st.frameTimes ++ [t1 - st.lastFrameTime]).length : ℚ))
      else 0) := by
    rw [hrw]
    show (if (if 30 < (st.frameTimes ++ [t1 - st.lastFrameTime]).length then
          (st.frameTimes ++ [t1 - st.lastFrameTime]).tail
        else st.frameTimes ++ [t1 - st.lastFrameTime]) ≠ [] then
        (if 0 < (if 30 < (st.frameTimes ++ [t1 - st.lastFrameTime]).length then
              (st.frameTimes ++ [t1 - st.lastFrameTime]).tail
            else st.frameTimes ++ [t1 - st.lastFrameTime]).sum /
            ((if 30 < (st.frameTimes ++ [t1 - st.lastFrameTime]).length then
              (st.frameTimes ++ [t1 - st.lastFrameTime]).tail
            else st.frameTimes ++ [t1 - st.lastFrameTime]).length : ℚ) then
          1 / ((if 30 < (st.frameTimes ++ [t1 - st.lastFrameTime]).length then
              (st.frameTimes ++ [t1 - st.lastFrameTime]).tail
            else st.frameTimes ++ [t1 - st.lastFrameTime]).sum /
            ((if 30 < (st.frameTimes ++ [t1 - st.lastFrameTime]).length then
              (st.frameTimes ++ [t1 - st.lastFrameTime]).tail
            else st.frameTimes ++ [t1 - st.lastFrameTime]).length : ℚ))
        else 0)
      else StreamStats.zero.fps) =
      (if 0 < (st.frameTimes ++ [t1 - st.lastFrameTime]).sum /
            ((st.frameTimes ++ [t1 - st.lastFrameTime]).length : ℚ) then
        1 / ((st.frameTimes ++ [t1 - st.lastFrameTime]).sum /
            ((st.frameTimes ++ [t1 - st.lastFrameTime]).length : ℚ))
      else 0)
    rw [if_neg hle, if_pos hne]
  have h9 : (recvUpdateFrame (recvConnect (recvDisconnect st).1 host port).1 t1
      frame).stats.frameCount = 1 := by
    rw [hrw]
    rfl
  exact ⟨rfl, rfl, rfl, rfl, rfl, rfl, h7, h8, h9⟩

/-- Witness for claim C10 at a concrete receiver with one prior delta. -/
theorem c10_window_survives_disconnect_witness :
    (recvDisconnect activeReceiver).1.stats = StreamStats.zero ∧
    (recvDisconnect activeReceiver).1.frameTimes = activeReceiver.frameTimes ∧
    (recvDisconnect activeReceiver).1.lastFrameTime = activeReceiver.lastFrameTime ∧
    (recvConnect (recvDisconnect activeReceiver).1 ("phone") 8080).1.stats = StreamStats.zero ∧
    (recvConnect (recvDisconnect activeReceiver).1 ("phone") 8080).1.frameTimes =
      activeReceiver.frameTimes ∧
    (recvConnect (recvDisconnect activeReceiver).1 ("phone") 8080).1.lastFrameTime =
      activeReceiver.lastFrameTime ∧
    (recvUpdateFrame (recvConnect (recvDisconnect activeReceiver).1 ("phone") 8080).1 5
        []).frameTimes =
      activeReceiver.frameTimes ++ [5 - activeReceiver.lastFrameTime] ∧
    (recvUpdateFrame (recvConnect (recvDisconnect activeReceiver).1 ("phone") 8080).1 5
        []).stats.fps =
      (if 0 < (activeReceiver.frameTimes ++ [5 - activeReceiver.lastFrameTime]).sum /
            ((activeReceiver.frameTimes ++ [5 - activeReceiver.lastFrameTime]).length : ℚ) then
        1 / ((activeReceiver.frameTimes ++ [5 - activeReceiver.lastFrameTime]).sum /
            ((activeReceiver.frameTimes ++ [5 - activeReceiver.lastFrameTime]).length : ℚ))
      else 0) ∧
    (recvUpdateFrame (recvConnect (recvDisconnect activeReceiver).1 ("phone") 8080).1 5
        []).stats.frameCount = 1 :=
  c10_window_survives_disconnect activeReceiver ("phone") 8080 5 []
    (by norm_num [activeReceiver]) (by norm_num [activeReceiver])

/-- AndroidDevice dataclass of adb_bridge.py. -/
structure AndroidDevice where
  serial : String
  state : String
  model : Option String
  product : Option String
deriving DecidableEq

/-- The set of device serials of a device list, as compared by the monitor
loop via Python set comparison. -/
def serialSet (ds : List AndroidDevice) : Finset String :=
  (ds.map AndroidDevice.serial).toFinset

/-- One poll iteration of ADBBridge._monitor_loop (adb_bridge.py lines
173-185): compare the serial set of the freshly enumerated devices with the
serial set of the remembered list; on a difference, remember the new list
and fire the callback with the full current list. -/
def monitorPoll (last cur : List AndroidDevice) :
    List AndroidDevice × Option (List AndroidDevice) :=
  if serialSet cur ≠ serialSet last then (cur, some cur) else (last, none)

/-- The monitor loop over a sequence of enumeration results, starting from
the initial empty remembered list; returns, per poll, the callback firing
(some full-current-list) or none. -/
def monitorRun : List AndroidDevice → List (List AndroidDevice) →
    List (Option (List AndroidDevice))
  | _, [] => []
  | last, p :: ps => (monitorPoll last p).2 :: monitorRun (monitorPoll last p).1 ps

/-- Modelled from the spec's words (claim C6): the callback fires at a poll
if and only if the set of device serials of that poll differs from the set
at the previous poll (the empty list before the first poll), and when it
fires it carries the full current device list. -/
def monitorRunSpec : List AndroidDevice → List (List AndroidDevice) →
    List (Option (List AndroidDevice))
  | _, [] => []
  | prev, p :: ps =>
    (if serialSet p ≠ serialSet prev then some p else none) :: monitorRunSpec p ps

theorem monitorRun_eq_spec_aux (polls : List (List AndroidDevice)) :
    ∀ last prev : List AndroidDevice, serialSet last = serialSet prev →
      monitorRun last polls = monitorRunSpec prev polls := by
  induction polls with
  | nil => intro last prev _; rfl
  | cons p ps ih =>
    intro last prev hset
    rw [monitorRun, monitorRunSpec]
    by_cases hch : serialSet p ≠ serialSet last
    · have hch2 : serialSet p ≠ serialSet prev := by rw [← hset]; exact hch
      rw [show monitorPoll last p = (p, some p) from by rw [monitorPoll, if_pos hch]]
      rw [if_pos hch2]
      exact congrArg _ (ih p p rfl)
    · have heq : serialSet p = serialSet last := not_not.1 hch
      have hch2 : ¬ serialSet p ≠ serialSet prev := by rw [← hset]; exact hch
      rw [show monitorPoll last p = (last, none) from by rw [monitorPoll, if_neg hch]]
      rw [if_neg hch2]
      exact congrArg _ (ih last p heq.symm)

/-- Claim C6: over every sequence of device-monitor polls, the code's
monitor loop fires its callback exactly as the specification describes —
if and only if the set of device serials differs from the previous poll
(so reordering the same serials or changing only non-serial fields never
fires it), and each firing carries the full current device list. -/
theorem c6_monitor_diffing (polls : List (List AndroidDevice)) :
    monitorRun [] polls = monitorRunSpec [] polls :=
  monitorRun_eq_spec_aux polls [] [] rfl

/-- State of the ADBBridge relevant to port forwarding (adb_bridge.py
lines 27-33). -/
structure BridgeState where
  portForwardingActive : Bool
  connectedDevice : Option AndroidDevice
  monitoring : Bool
deriving DecidableEq

/-- ADBBridge.stop_port_forwarding (adb_bridge.py lines 136-144): run the
removal command (its result, None on any failure, is the adbResult
parameter), then unconditionally clear the forwarding-active flag and the
connected device; the returned boolean only reflects the command result. -/
def stopPortForwarding (st : BridgeState) (adbResult : Option (List Char)) :
    BridgeState × Bool :=
  ({ st with portForwardingActive := false, connectedDevice := none }, adbResult.isSome)

/-- ADBBridge.stop_all_forwarding (adb_bridge.py lines 146-151): identical
cleanup with the remove-all command. -/
def stopAllForwarding (st : BridgeState) (adbResult : Option (List Char)) :
    BridgeState × Bool :=
  ({ st with portForwardingActive := false, connectedDevice := none }, adbResult.isSome)

/-- Claim C7: for every bridge state and every outcome of the underlying
removal command — including failure (None) — both stop operations clear the
forwarding-active flag and the connected-device field. -/
theorem c7_stop_forwarding_clears (st : BridgeState) (adbResult : Option (List Char)) :
    (stopPortForwarding st adbResult).1.portForwardingActive = false ∧
    (stopPortForwarding st adbResult).1.connectedDevice = none ∧
    (stopAllForwarding st adbResult).1.portForwardingActive = false ∧
    (stopAllForwarding st adbResult).1.connectedDevice = none :=
  ⟨rfl, rfl, rfl, rfl⟩

/-- Python whitespace characters recognised by str.strip and str.split. -/
def wsChar (c : Char) : Bool :=
  c = ' ' || c = '\t' || c = '\n' || c = '\r' || c = '\x0B' || c = '\x0C'

/-- Drop leading whitespace. -/
def dropLeadWS : List Char → List Char
  | [] => []
  | c :: cs => if wsChar c then dropLeadWS cs else c :: cs

/-- Python str.strip: drop leading and trailing whitespace. -/
def stripWS (l : List Char) : List Char :=
  (dropLeadWS ((dropLeadWS l).reverse)).reverse

/-- Python str.split(sep) with an explicit separator: split at every
occurrence, keeping empty pieces. -/
def splitOnCh (sep : Char) : List Char → List (List Char)
  | [] => [[]]
  | c :: cs =>
    if c = sep then [] :: splitOnCh sep cs
    else
      match splitOnCh sep cs with
      | [] => [[c]]
      | h :: t => (c :: h) :: t

/-- Accumulator-based core of whitespace tokenisation. -/
def tokensAux : List Char → List Char → List (List Char)
  | acc, [] => if acc = [] then [] else [acc.reverse]
  | acc, c :: cs =>
    if wsChar c then
      (if acc = [] then tokensAux [] cs else acc.reverse :: tokensAux [] cs)
    else tokensAux (c :: acc) cs

/-- Python str.split() with no argument: whitespace-separated tokens,
runs collapsed, no empty tokens. -/
def tokens (l : List Char) : List (List Char) := tokensAux [] l

/-- Whether the first list is an initial segment of the second. -/
def isPre : List Char → List Char → Bool
  | [], _ => true
  | _ :: _, [] => false
  | p :: ps, x :: xs => p = x && isPre ps xs

/-- Python substring containment (the in operator on str). -/
def isInf (pat : List Char) : List Char → Bool
  | [] => isPre pat []
  | x :: xs => isPre pat (x :: xs) || isInf pat xs

/-- The model/product attribute loop of ADBBridge.get_devices (adb_bridge.py
lines 86-93): scan the tokens after serial and state; a token starting with
model: or product: sets the respective attribute to the text after the first
colon, later occurrences overwriting earlier ones. -/
def parseExtras : Option (List Char) × Option (List Char) → List (List Char) →
    Option (List Char) × Option (List Char)
  | mp, [] => mp
  | (m, p), part :: rest =>
    if isPre ("model:".toList) part then
      parseExtras (some (List.getD (splitOnCh ':' part) 1 []), p) rest
    else if isPre ("product:".toList) part then
      parseExtras (m, some (List.getD (splitOnCh ':' part) 1 [])) rest
    else parseExtras (m, p) rest

/-- Per-line parsing of ADBBridge.get_devices (adb_bridge.py lines 76-100):
strip the line; skip it when empty or when it contains the substring
offline; split into whitespace tokens; with at least two tokens the first
is the serial, the second the state, and the remaining tokens are scanned
for model: and product: attributes. -/
def parseDeviceLine (raw : List Char) : Option AndroidDevice :=
  let line := stripWS raw
  if line = [] then none
  else if isInf ("offline".toList) line then none
  else
    let parts := tokens line
    if 2 ≤ parts.length then
      some { serial := String.mk (List.getD parts 0 []),
             state := String.mk (List.getD parts 1 []),
             model := (parseExtras (none, none) (parts.drop 2)).1.map String.mk,
             product := (parseExtras (none, none) (parts.drop 2)).2.map String.mk }
    else none

/-- ADBBridge.get_devices (adb_bridge.py lines 67-102): the enumeration
output is the result of the adb devices -l subprocess call, None on any
failure; a falsy output (None or empty) yields the empty list, otherwise
every line after the header line is parsed, skipping the rejected ones. -/
def getDevices (enumOut : Option (List Char)) : List AndroidDevice :=
  match enumOut with
  | none => []
  | some out =>
    if out = [] then []
    else ((splitOnCh '\n' out).drop 1).filterMap parseDeviceLine

/-- Claim C9: the enumeration line ABC123 device model:Pixel6 product:raven
after the header parses to serial ABC123, state device, model Pixel6,
product raven; every line containing the substring offline is excluded; and
any enumeration failure (None output) or empty output yields the empty
list. -/
theorem c9_get_devices_parsing :
    getDevices
        (some ("List of devices attached\nABC123 device model:Pixel6 product:raven".toList)) =
      [{ serial := "ABC123", state := "device", model := some ("Pixel6"),
         product := some ("raven") }] ∧
    (∀ raw : List Char, isInf ("offline".toList) (stripWS raw) = true →
      parseDeviceLine raw = none) ∧
    getDevices none = [] ∧
    getDevices (some ("".toList)) = [] := by
  refine ⟨by decide, ?_, rfl, by decide⟩
  intro raw h
  simp only [parseDeviceLine]
  by_cases hline : stripWS raw = []
  · rw [if_pos hline]
  · rw [if_neg hline, if_pos h]

/-- Witness for claim C9: a concrete offline line is excluded. -/
theorem c9_get_devices_parsing_witness :
    parseDeviceLine ("XYZ789 offline".toList) = none :=
  c9_get_devices_parsing.2.1 ("XYZ789 offline".toList) (by decide)
